import Mathlib

/-!
Verification development for the command-serialization and response-parsing
layer of the apple-reminders-mcp repository (`src/applescript-executor.ts`).

The TypeScript source is shallowly embedded below.  JavaScript string
primitives used by the source (`String.prototype.split`, `trim`, `replace`,
truthiness coercion via `||`, `parseInt`) are modelled by executable Lean
functions over `List Char` so that every definition evaluates inside the
kernel.  Strings are ASCII/BMP in all concrete inputs considered, where the
JavaScript UTF-16 view and Lean's `List Char` view coincide.
-/

namespace AppleReminders

/-- JavaScript whitespace as used by `String.prototype.trim` and `parseInt`:
tab, LF, VT, FF, CR, space, NBSP, line/paragraph separator, BOM.  (Other
Unicode `Zs` code points also count in JS; they do not occur in any input
considered here.) -/
def isJsWhitespace (c : Char) : Bool :=
  c.toNat = 9 || c.toNat = 10 || c.toNat = 11 || c.toNat = 12 || c.toNat = 13 ||
  c.toNat = 32 || c.toNat = 160 || c.toNat = 8232 || c.toNat = 8233 || c.toNat = 65279

/-- Model of `String.prototype.trim`: strip leading and trailing JS whitespace. -/
def jsTrim (s : String) : String :=
  ⟨((s.data.dropWhile isJsWhitespace).reverse.dropWhile isJsWhitespace).reverse⟩

/-- Whether `pat` is an initial segment of `l`. -/
def leadsWith : List Char → List Char → Bool
  | [], _ => true
  | _ :: _, [] => false
  | a :: as, b :: bs => a == b && leadsWith as bs

/-- Worker for `jsSplit`.  `fuel` bounds the recursion (the input length
suffices since each step consumes at least one character); `acc` is the
current chunk, reversed. -/
def splitGo (sep : List Char) : Nat → List Char → List Char → List (List Char)
  | _, [], acc => [acc.reverse]
  | 0, rest, acc => [acc.reverse ++ rest]
  | fuel + 1, c :: rest, acc =>
    if leadsWith sep (c :: rest) then
      acc.reverse :: splitGo sep fuel ((c :: rest).drop sep.length) []
    else
      splitGo sep fuel rest (c :: acc)

/-- Model of JavaScript `s.split(sep)` for a non-empty separator `sep`:
splits on every (leftmost, non-overlapping) occurrence; always returns at
least one element; `"".split(sep)` is `[""]`. -/
def jsSplit (s sep : String) : List String :=
  (splitGo sep.data s.data.length s.data []).map (fun cs => ⟨cs⟩)

/-- JavaScript `a || b` for a string `a` that may be `undefined`
(modelled as `none`): the empty string is falsy. -/
def jsStrOr (v : Option String) (d : String) : String :=
  match v with
  | some s => if s.data.isEmpty then d else s
  | none => d

/-- JavaScript `a || undefined` for a string `a` that may be `undefined`:
both `undefined` and the (falsy) empty string give `undefined`. -/
def jsStrOrUndef (v : Option String) : Option String :=
  match v with
  | some s => if s.data.isEmpty then none else some s
  | none => none

/-- JavaScript `a || b` for a number `a` that may be `NaN` (modelled as
`none`): `NaN` and `0` are falsy. -/
def jsNumOr (v : Option Int) (d : Int) : Int :=
  match v with
  | some n => if n = 0 then d else n
  | none => d

/-- Decimal digit value of a character, if any. -/
def decDigit (c : Char) : Option Nat :=
  if 48 ≤ c.toNat ∧ c.toNat ≤ 57 then some (c.toNat - 48) else none

/-- Hexadecimal digit value of a character, if any. -/
def hexDigit (c : Char) : Option Nat :=
  if 48 ≤ c.toNat ∧ c.toNat ≤ 57 then some (c.toNat - 48)
  else if 97 ≤ c.toNat ∧ c.toNat ≤ 102 then some (c.toNat - 87)
  else if 65 ≤ c.toNat ∧ c.toNat ≤ 70 then some (c.toNat - 55)
  else none

/-- Value of the longest leading digit run of `cs`, or `none` when there is
no leading digit. -/
def parseDigitRun (dv : Char → Option Nat) (radix : Nat) (cs : List Char) : Option Nat :=
  let ds := cs.takeWhile (fun c => (dv c).isSome)
  if ds.isEmpty then none
  else some (ds.foldl (fun acc c => acc * radix + (dv c).getD 0) 0)

/-- Model of JavaScript `parseInt(s)` with no radix argument: skip leading
whitespace, optional sign, optional `0x`/`0X` hex prefix, then parse the
longest digit run; `none` models `NaN`.  (Precision loss for astronomically
long digit runs is not modelled; the source only parses priority values.) -/
def jsParseInt (s : String) : Option Int :=
  let cs := s.data.dropWhile isJsWhitespace
  let signAndRest : Int × List Char :=
    match cs with
    | c :: rest => if c = '-' then (-1, rest) else if c = '+' then (1, rest) else (1, cs)
    | [] => (1, [])
  let sign := signAndRest.1
  let cs1 := signAndRest.2
  let hexRest : Option (List Char) :=
    match cs1 with
    | c0 :: c1 :: rest => if c0 = '0' ∧ (c1 = 'x' ∨ c1 = 'X') then some rest else none
    | _ => none
  match hexRest with
  | some rest => (parseDigitRun hexDigit 16 rest).map (fun n => sign * (n : Int))
  | none => (parseDigitRun decDigit 10 cs1).map (fun n => sign * (n : Int))

/-- Model of JavaScript `array.join(sep)`. -/
def joinSep (sep : String) : List String → String
  | [] => ""
  | [s] => s
  | s :: rest => s ++ sep ++ joinSep sep rest

/-- Wrap a value in AppleScript double quotes, exactly as the source's
template literals `"${value}"` do — note: no escaping of the value. -/
def dq (s : String) : String := "\"" ++ s ++ "\""

/-- The single-quote character (the source never escapes it per-value, only
once on the whole script). -/
def squote : String := ⟨[Char.ofNat 39]⟩

/-- Model of `script.replace(/'/g, "\\'")` from `executeScript` (line 28):
every single quote in the script is replaced by backslash + single quote
before the script is handed to the shell. -/
def escapeSingleQuotes (s : String) : String :=
  ⟨s.data.foldr
    (fun c acc => if c.toNat = 39 then Char.ofNat 92 :: Char.ofNat 39 :: acc else c :: acc) []⟩

/-- Model of the shell command built on line 28:
`osascript -e '<script with single quotes backslash-escaped>'`. -/
def shellCommand (script : String) : String :=
  "osascript -e " ++ squote ++ escapeSingleQuotes script ++ squote

/-- Model of `executeScript` (lines 26–33) as a function of the subprocess
outcome: on success the raw stdout is trimmed; any rejection (spawn error or
non-zero exit, carrying diagnostic text `e`) is re-thrown as the single
failure kind `AppleScript execution failed: <e>`. -/
def executeScriptResult (execOutcome : Except String String) : Except String String :=
  match execOutcome with
  | Except.ok stdout => Except.ok (jsTrim stdout)
  | Except.error e => Except.error ("AppleScript execution failed: " ++ e)

/-- `RemindersList` interface (source lines 8–11). -/
structure RemindersList where
  name : String
  id : String
  deriving Repr, DecidableEq

/-- `Reminder` interface (source lines 13–23); optional TS fields become
`Option`. -/
structure Reminder where
  id : String
  name : String
  body : Option String
  completed : Bool
  list : String
  dueDate : Option String
  priority : Int
  creationDate : String
  modificationDate : String
  deriving Repr, DecidableEq

/-- Positional pairing step of `getReminderLists` (lines 53–56):
`names.map((name, index) => ({ name: name.trim(), id: ids[index]?.trim() || '' }))`. -/
def pairLists (names ids : List String) : List RemindersList :=
  names.enum.map (fun p =>
    ⟨jsTrim p.2, jsStrOr ((ids.get? p.1).map jsTrim) ""⟩)

/-- Decoder of `getReminderLists` (lines 48–56) as a function of the raw
interpreter result: split on `"|||"`, destructure into the name group and the
id group, split each on `", "`, pair by position.  When the result contains
no `"|||"` the destructured `idsStr` is `undefined` and `idsStr.split`
throws a `TypeError`; that raise is modelled as `none`. -/
def getReminderListsDecode (result : String) : Option (List RemindersList) :=
  let parts := jsSplit result "|||"
  match parts.get? 0, parts.get? 1 with
  | some namesStr, some idsStr =>
    some (pairLists (jsSplit namesStr ", ") (jsSplit idsStr ", "))
  | _, _ => none

/-- Per-line record construction of `getReminders` (lines 94–105), as a
function of `parts = line.split('§§§')`.  `parts[i]` beyond the end is
`undefined`; `parseInt(undefined)` coerces `undefined` to the string
`"undefined"` (which parses to `NaN`), hence the `getD "undefined"`. -/
def decodeParts (parts : List String) : Reminder :=
  ⟨ jsStrOr (parts.get? 4) ""                                 -- id: parts[4] || ''
  , jsStrOr (parts.get? 0) ""                                 -- name: parts[0] || ''
  , jsStrOrUndef (parts.get? 1)                               -- body: parts[1] || undefined
  , parts.get? 2 == some "true"                               -- completed: parts[2] === 'true'
  , jsStrOr (parts.get? 3) ""                                 -- list: parts[3] || ''
  , jsStrOrUndef (parts.get? 8)                               -- dueDate: parts[8] || undefined
  , jsNumOr (jsParseInt ((parts.get? 7).getD "undefined")) 0  -- priority: parseInt(parts[7]) || 0
  , jsStrOr (parts.get? 5) ""                                 -- creationDate: parts[5] || ''
  , jsStrOr (parts.get? 6) "" ⟩                               -- modificationDate: parts[6] || ''

/-- Per-line decoder of `getReminders` (line 94): split the line on the field
sentinel and build the record. -/
def decodeLine (line : String) : Reminder :=
  decodeParts (jsSplit line "§§§")

/-- Result decoder of `getReminders` (lines 90–106): empty (falsy) result
short-circuits to `[]`; otherwise split into lines, drop blank lines, decode
each. -/
def decodeReminders (result : String) : List Reminder :=
  if result.data.isEmpty then []
  else ((jsSplit result "\n").filter (fun line => !(jsTrim line).data.isEmpty)).map decodeLine

/-- Per-line record construction of `searchReminders` (lines 206–217),
translated independently of `decodeParts` from its own code site. -/
def searchDecodeParts (parts : List String) : Reminder :=
  ⟨ jsStrOr (parts.get? 4) ""                                 -- id: parts[4] || ''
  , jsStrOr (parts.get? 0) ""                                 -- name: parts[0] || ''
  , jsStrOrUndef (parts.get? 1)                               -- body: parts[1] || undefined
  , parts.get? 2 == some "true"                               -- completed: parts[2] === 'true'
  , jsStrOr (parts.get? 3) ""                                 -- list: parts[3] || ''
  , jsStrOrUndef (parts.get? 8)                               -- dueDate: parts[8] || undefined
  , jsNumOr (jsParseInt ((parts.get? 7).getD "undefined")) 0  -- priority: parseInt(parts[7]) || 0
  , jsStrOr (parts.get? 5) ""                                 -- creationDate: parts[5] || ''
  , jsStrOr (parts.get? 6) "" ⟩                               -- modificationDate: parts[6] || ''

/-- Per-line decoder of `searchReminders` (line 206). -/
def searchDecodeLine (line : String) : Reminder :=
  searchDecodeParts (jsSplit line "§§§")

/-- Result decoder of `searchReminders` (lines 202–218). -/
def searchDecodeReminders (result : String) : List Reminder :=
  if result.data.isEmpty then []
  else ((jsSplit result "\n").filter (fun line => !(jsTrim line).data.isEmpty)).map searchDecodeLine

/-- The optional body clause of `createReminder` (line 116):
`body ? \`set body of newReminder to "${body}"\` : ''` — a JS truthiness
test, so a supplied empty string also yields no clause. -/
def createBodyScript (body : Option String) : String :=
  match body with
  | some b => if b.data.isEmpty then "" else "set body of newReminder to " ++ dq b
  | none => ""

/-- The optional due-date clause of `createReminder` (line 117). -/
def createDueDateScript (dueDate : Option String) : String :=
  match dueDate with
  | some d => if d.data.isEmpty then "" else "set due date of newReminder to date " ++ dq d
  | none => ""

/-- The optional priority clause of `createReminder` (line 118):
`priority ? ... : ''` — `0` is falsy in JS, so priority 0 yields no clause. -/
def createPriorityScript (priority : Option Int) : String :=
  match priority with
  | some p => if p = 0 then "" else "set priority of newReminder to " ++ toString p
  | none => ""

/-- The AppleScript command built by `createReminder` (lines 120–130),
with the source template literal's exact whitespace. -/
def createReminderScript (name listName : String)
    (body dueDate : Option String) (priority : Option Int) : String :=
  "\n      tell application " ++ dq "Reminders" ++
  "\n        set targetList to list " ++ dq listName ++
  "\n        set newReminder to make new reminder in targetList" ++
  "\n        set name of newReminder to " ++ dq name ++
  "\n        " ++ createBodyScript body ++
  "\n        " ++ createDueDateScript dueDate ++
  "\n        " ++ createPriorityScript priority ++
  "\n        return id of newReminder" ++
  "\n      end tell\n    "

/-- The update record accepted by `updateReminder` (lines 137–143);
absent TS fields become `none`. -/
structure ReminderUpdates where
  name : Option String
  body : Option String
  completed : Option Bool
  dueDate : Option String
  priority : Option Int
  deriving Repr, DecidableEq

/-- The `updateCommands` array built by `updateReminder` (lines 145–151).
Note the guards: `if (updates.name)` and `if (updates.dueDate)` are JS
truthiness tests (empty string excluded), while body, completed and priority
are compared against `undefined` only. -/
def updateCommands (u : ReminderUpdates) : List String :=
  (match u.name with
    | some n => if n.data.isEmpty then [] else ["set name of targetReminder to " ++ dq n]
    | none => []) ++
  (match u.body with
    | some b => ["set body of targetReminder to " ++ dq b]
    | none => []) ++
  (match u.completed with
    | some c => ["set completed of targetReminder to " ++ (if c then "true" else "false")]
    | none => []) ++
  (match u.dueDate with
    | some d => if d.data.isEmpty then [] else ["set due date of targetReminder to date " ++ dq d]
    | none => []) ++
  (match u.priority with
    | some p => ["set priority of targetReminder to " ++ toString p]
    | none => [])

/-- The AppleScript command built by `updateReminder` (lines 153–158):
`updateCommands.join('\n        ')` spliced into the template. -/
def updateReminderScript (reminderId : String) (u : ReminderUpdates) : String :=
  "\n      tell application " ++ dq "Reminders" ++
  "\n        set targetReminder to reminder id " ++ dq reminderId ++
  "\n        " ++ joinSep "\n        " (updateCommands u) ++
  "\n      end tell\n    "

/-- Number of fields literally present (not `undefined`) in an update
record; used to state the per-present-field clause claim. -/
def presentFieldCount (u : ReminderUpdates) : Nat :=
  (match u.name with | some _ => 1 | none => 0) +
  (match u.body with | some _ => 1 | none => 0) +
  (match u.completed with | some _ => 1 | none => 0) +
  (match u.dueDate with | some _ => 1 | none => 0) +
  (match u.priority with | some _ => 1 | none => 0)

/-- Number of fields of an update record that pass the source's guards
(present, and additionally non-empty for `name` and `dueDate`). -/
def truthyFieldCount (u : ReminderUpdates) : Nat :=
  (match u.name with | some n => if n.data.isEmpty then 0 else 1 | none => 0) +
  (match u.body with | some _ => 1 | none => 0) +
  (match u.completed with | some _ => 1 | none => 0) +
  (match u.dueDate with | some d => if d.data.isEmpty then 0 else 1 | none => 0) +
  (match u.priority with | some _ => 1 | none => 0)

/-- Count of double-quote characters not immediately preceded by a
backslash.  In AppleScript the double quote delimits string literals and
backslash is the escape character, so one syntactically valid command must
contain an even number of unescaped double quotes (every opened string
literal is closed). -/
def unescapedDQCount : List Char → Nat
  | '\\' :: _ :: rest => unescapedDQCount rest
  | '"' :: rest => 1 + unescapedDQCount rest
  | _ :: rest => unescapedDQCount rest
  | [] => 0

/-- Number of (possibly overlapping) occurrences of `needle` in `hay`. -/
def countOcc (needle hay : String) : Nat :=
  ((List.range (hay.data.length + 1)).filter
    (fun i => leadsWith needle.data (hay.data.drop i))).length

end AppleReminders

namespace AppleReminders

/-- Helper: the character data of an appended string is the appended data. -/
theorem data_append (a b : String) : (a ++ b).data = a.data ++ b.data := by
  cases a
  cases b
  rfl

/-- Helper: a string is empty exactly when its character data is. -/
theorem str_empty_iff (s : String) : s.data = [] ↔ s = "" := by
  cases s with
  | mk l =>
    constructor
    · intro h
      exact String.ext h
    · intro h
      exact congrArg String.data h

set_option maxRecDepth 8192 in
/-- C1: the source applies no double-quote escaping to any interpolated
value (only the whole-script single-quote layer of `executeScript` exists),
so a `createReminder` name containing a double quote yields a command with
an odd number of unescaped double quotes — an unterminated AppleScript
string literal, not one syntactically valid command.  The conjuncts show:
the adversarial script (even after the single-quote escaping layer) has
unbalanced quotes while the benign one is balanced; the raw name occurs
verbatim and its escaped form does not; and the single-quote layer itself
does exist. -/
theorem claim1_double_quote_injection :
    unescapedDQCount (escapeSingleQuotes
      (createReminderScript "a\"b" "Personal" none none none)).data % 2 = 1 ∧
    unescapedDQCount (escapeSingleQuotes
      (createReminderScript "Buy milk" "Personal" none none none)).data % 2 = 0 ∧
    countOcc "a\"b" (createReminderScript "a\"b" "Personal" none none none) = 1 ∧
    countOcc "a\\\"b" (createReminderScript "a\"b" "Personal" none none none) = 0 ∧
    escapeSingleQuotes squote = "\\" ++ squote := by
  refine ⟨by decide, by decide, by decide, by decide, by decide⟩

/-- C2 counterexample: the update record `{name: ""}` has one present field,
yet `updateReminder` builds a command with zero assignment clauses, because
`if (updates.name)` is a truthiness test — so "exactly one assignment clause
per field present" fails. -/
theorem claim2_counterexample :
    presentFieldCount ⟨some "", none, none, none, none⟩ = 1 ∧
    updateCommands ⟨some "", none, none, none, none⟩ = [] ∧
    updateReminderScript "x-1" ⟨some "", none, none, none, none⟩ =
      "\n      tell application \"Reminders\"\n        set targetReminder to reminder id \"x-1\"\n        \n      end tell\n    " := by
  refine ⟨by decide, by decide, by decide⟩

/-- C2 (amended): `updateReminder` emits assignment clauses in the fixed
order name, body, completed, dueDate, priority, one per field passing the
source's guard — present for body/completed/priority, present and non-empty
for name/dueDate; in particular `{completed: true}` yields exactly the
completed clause and none of the others. -/
theorem claim2_amended_update_clauses :
    updateCommands ⟨none, none, some true, none, none⟩ =
      ["set completed of targetReminder to true"] ∧
    updateReminderScript "x-1" ⟨none, none, some true, none, none⟩ =
      "\n      tell application \"Reminders\"\n        set targetReminder to reminder id \"x-1\"\n        set completed of targetReminder to true\n      end tell\n    " ∧
    ∀ u : ReminderUpdates, (updateCommands u).length = truthyFieldCount u := by
  refine ⟨by decide, by decide, ?_⟩
  intro u
  rcases u with ⟨na, bo, co, du, pr⟩
  cases na <;> cases bo <;> cases co <;> cases du <;> cases pr <;>
    simp [updateCommands, truthyFieldCount] <;> split_ifs <;> simp

/-- C3 counterexample: a `listLists` result whose name group and id group
split to different lengths (two names, one id) decodes without any failure:
the missing id is silently replaced by the empty string, refuting
"a mismatched array length after the split is an unrecoverable decode
failure". -/
theorem claim3_counterexample :
    getReminderListsDecode "A, B|||id1" = some [⟨"A", "id1"⟩, ⟨"B", ""⟩] := by
  decide

/-- C3 (amended): the decoder splits on the group separator and on `", "`
and pairs by position — the name at index i pairs with the id at index i —
but a length mismatch is not a failure: a missing id decodes to the empty
string (`ids[index]?.trim() || ''`) and surplus ids are ignored.  Only a
result with no group separator at all fails (a thrown `TypeError`). -/
theorem claim3_amended_pairing :
    getReminderListsDecode "A, B, C|||id1, id2, id3" =
      some [⟨"A", "id1"⟩, ⟨"B", "id2"⟩, ⟨"C", "id3"⟩] ∧
    (∀ names ids : List String,
      (pairLists names ids).length = names.length ∧
      ∀ i : Nat, (pairLists names ids).get? i =
        (names.get? i).map
          (fun nm => ⟨jsTrim nm, jsStrOr ((ids.get? i).map jsTrim) ""⟩)) ∧
    getReminderListsDecode "A, B" = none := by
  refine ⟨by decide, ?_, by decide⟩
  intro names ids
  constructor
  · simp [pairLists]
  · intro i
    simp only [pairLists, List.enum, List.get?_map, List.get?_enumFrom, Nat.zero_add,
      Option.map_map]
    cases names.get? i <;> rfl

/-- C4: `executeScript` maps any subprocess rejection (spawn error or
non-zero exit, diagnostic text `e`) to the single failure kind
`AppleScript execution failed: <e>` — never to a successful result — and on
success returns the raw stdout trimmed of surrounding whitespace. -/
theorem claim4_invocation_failure :
    (∀ e : String, executeScriptResult (Except.error e) =
      Except.error ("AppleScript execution failed: " ++ e)) ∧
    (∀ e : String, (executeScriptResult (Except.error e)).isOk = false) ∧
    (∀ out : String, executeScriptResult (Except.ok out) = Except.ok (jsTrim out)) :=
  ⟨fun _ => rfl, fun _ => rfl, fun _ => rfl⟩

set_option maxRecDepth 8192 in
/-- C5 counterexample: `createReminder` with priority 0 supplied builds a
command with no priority clause (`priority ?` is a truthiness test and 0 is
falsy), refuting "clause ... if and only if the corresponding optional
argument was supplied"; a non-zero priority does produce the clause. -/
theorem claim5_counterexample :
    createPriorityScript (some 0) = "" ∧
    countOcc "set priority" (createReminderScript "X" "Personal" none none (some 0)) = 0 ∧
    countOcc "set priority" (createReminderScript "X" "Personal" none none (some 5)) = 1 := by
  refine ⟨by decide, by decide, by decide⟩

set_option maxRecDepth 8192 in
/-- C5 (amended): the body, dueDate and priority clauses of `createReminder`
are empty exactly when the argument is absent or falsy (empty string for
body/dueDate, zero for priority); `createReminder("Buy milk","Personal")`
with no optional fields builds a command containing no body, due date or
priority clause. -/
theorem claim5_amended_create_clauses :
    (∀ body : Option String, createBodyScript body = "" ↔ body = none ∨ body = some "") ∧
    (∀ d : Option String, createDueDateScript d = "" ↔ d = none ∨ d = some "") ∧
    (∀ p : Option Int, createPriorityScript p = "" ↔ p = none ∨ p = some 0) ∧
    countOcc "set body" (createReminderScript "Buy milk" "Personal" none none none) = 0 ∧
    countOcc "set due date" (createReminderScript "Buy milk" "Personal" none none none) = 0 ∧
    countOcc "set priority" (createReminderScript "Buy milk" "Personal" none none none) = 0 := by
  refine ⟨?_, ?_, ?_, by decide, by decide, by decide⟩
  · intro body
    cases body with
    | none => simp [createBodyScript]
    | some b =>
      by_cases hb : b.data.isEmpty
      · have hb' : b = "" := by
          rw [← str_empty_iff]
          simpa using hb
        simp [createBodyScript, hb, hb']
      · constructor
        · intro h
          simp only [createBodyScript, hb, Bool.false_eq_true, if_false] at h
          have hd := congrArg String.data h
          rw [data_append] at hd
          simp at hd
        · intro h
          rcases h with h | h
          · exact Option.noConfusion h
          · injection h with h'
            rw [h'] at hb
            simp at hb
  · intro d
    cases d with
    | none => simp [createDueDateScript]
    | some b =>
      by_cases hb : b.data.isEmpty
      · have hb' : b = "" := by
          rw [← str_empty_iff]
          simpa using hb
        simp [createDueDateScript, hb, hb']
      · constructor
        · intro h
          simp only [createDueDateScript, hb, Bool.false_eq_true, if_false] at h
          have hd := congrArg String.data h
          rw [data_append] at hd
          simp at hd
        · intro h
          rcases h with h | h
          · exact Option.noConfusion h
          · injection h with h'
            rw [h'] at hb
            simp at hb
  · intro p
    cases p with
    | none => simp [createPriorityScript]
    | some n =>
      by_cases hn : n = 0
      · simp [createPriorityScript, hn]
      · constructor
        · intro h
          simp only [createPriorityScript, hn, if_false] at h
          have hd := congrArg String.data h
          rw [data_append] at hd
          simp at hd
        · intro h
          rcases h with h | h
          · exact Option.noConfusion h
          · injection h with h'
            exact absurd h' hn

/-- C5 witness: instantiating the amended characterization at concrete
arguments. -/
theorem claim5_witness :
    createBodyScript none = "" ∧ createPriorityScript (some 0) = "" :=
  ⟨(claim5_amended_create_clauses.1 none).mpr (Or.inl rfl),
   (claim5_amended_create_clauses.2.2.1 (some 0)).mpr (Or.inr rfl)⟩

/-- C6: the reminder decoder is total — an empty result decodes to the empty
list, a line with only five of the nine sentinel-separated slots decodes
without failure to a record whose optional fields are absent (`body`,
`dueDate` are `none`) with `name`, `completed`, `list`, `id` populated; in
general any parts list shorter than nine slots yields `dueDate = none`,
shorter than two yields `body = none`, and shorter than eight yields
priority 0. -/
theorem claim6_decoder_total :
    decodeReminders "" = [] ∧
    decodeLine "A§§§§§§true§§§Work§§§xid" =
      ⟨"xid", "A", none, true, "Work", none, 0, "", ""⟩ ∧
    ∀ parts : List String, parts.length ≤ 8 →
      (decodeParts parts).dueDate = none ∧
      (parts.length ≤ 1 → (decodeParts parts).body = none) ∧
      (parts.length ≤ 7 → (decodeParts parts).priority = 0) := by
  refine ⟨by decide, by decide, ?_⟩
  intro parts h
  refine ⟨?_, ?_, ?_⟩
  · have h8 : parts[8]? = none := by
      rw [List.getElem?_eq_none_iff]
      omega
    simp [decodeParts, h8, jsStrOrUndef]
  · intro h1
    have h1' : parts[1]? = none := by
      rw [List.getElem?_eq_none_iff]
      omega
    simp [decodeParts, h1', jsStrOrUndef]
  · intro h7
    have h7' : parts[7]? = none := by
      rw [List.getElem?_eq_none_iff]
      omega
    have hu : jsParseInt "undefined" = none := by decide
    simp [decodeParts, h7', hu, jsNumOr]

/-- C6 witness: the bounds discharged on the one-slot parts list. -/
theorem claim6_witness :
    (decodeParts ["A"]).dueDate = none ∧ (decodeParts ["A"]).body = none ∧
    (decodeParts ["A"]).priority = 0 := by
  have h := claim6_decoder_total.2.2 ["A"] (by decide)
  exact ⟨h.1, h.2.1 (by decide), h.2.2 (by decide)⟩

/-- C7: the completed slot decodes to true exactly when it is the literal
text `true` (the interpreter's boolean-true literal), and to false for every
other string, including the empty string, `0` and `no`. -/
theorem claim7_completed_literal :
    ∀ s : String,
      ((decodeParts ["n", "b", s, "l", "i"]).completed = true ↔ s = "true") ∧
      (decodeParts ["n", "b", "", "l", "i"]).completed = false ∧
      (decodeParts ["n", "b", "0", "l", "i"]).completed = false ∧
      (decodeParts ["n", "b", "no", "l", "i"]).completed = false := by
  intro s
  refine ⟨?_, by decide, by decide, by decide⟩
  show ((["n", "b", s, "l", "i"].get? 2 == some "true") = true ↔ s = "true")
  simp [List.get?]

/-- C7 witness: the characterization applied at the boolean-true literal. -/
theorem claim7_witness : (decodeParts ["n", "b", "true", "l", "i"]).completed = true :=
  ((claim7_completed_literal "true").1).mpr rfl

/-- C8: the priority slot decodes to 0 when `parseInt` cannot parse it
(empty or non-numeric text) and to the parsed integer when it can; in
particular the inputs "", "0", "1", "5", "9", "3", "abc" decode to
0, 0, 1, 5, 9, 3, 0 respectively. -/
theorem claim8_priority_parse :
    (∀ s : String, jsParseInt s = none →
      (decodeParts ["n", "b", "c", "l", "i", "cd", "md", s]).priority = 0) ∧
    (∀ s : String, ∀ n : Int, jsParseInt s = some n →
      (decodeParts ["n", "b", "c", "l", "i", "cd", "md", s]).priority = n) ∧
    (decodeParts ["n", "b", "c", "l", "i", "cd", "md", ""]).priority = 0 ∧
    (decodeParts ["n", "b", "c", "l", "i", "cd", "md", "0"]).priority = 0 ∧
    (decodeParts ["n", "b", "c", "l", "i", "cd", "md", "1"]).priority = 1 ∧
    (decodeParts ["n", "b", "c", "l", "i", "cd", "md", "5"]).priority = 5 ∧
    (decodeParts ["n", "b", "c", "l", "i", "cd", "md", "9"]).priority = 9 ∧
    (decodeParts ["n", "b", "c", "l", "i", "cd", "md", "3"]).priority = 3 ∧
    (decodeParts ["n", "b", "c", "l", "i", "cd", "md", "abc"]).priority = 0 := by
  refine ⟨?_, ?_, by decide, by decide, by decide, by decide, by decide, by decide, by decide⟩
  · intro s h
    simp [decodeParts, List.get?, h, jsNumOr]
  · intro s n h
    by_cases hn : n = 0 <;> simp [decodeParts, List.get?, h, jsNumOr, hn]

/-- C8 witness: the two universal parts applied at "7" and "xyz". -/
theorem claim8_witness :
    (decodeParts ["n", "b", "c", "l", "i", "cd", "md", "7"]).priority = 7 ∧
    (decodeParts ["n", "b", "c", "l", "i", "cd", "md", "xyz"]).priority = 0 :=
  ⟨claim8_priority_parse.2.1 "7" 7 (by decide),
   claim8_priority_parse.1 "xyz" (by decide)⟩

/-- C9 counterexample: a line whose body capture is missing (a single-slot
line) decodes to an absent body (`undefined`), not to the empty string:
`parts[1] || undefined` maps a missing capture to `undefined`. -/
theorem claim9_counterexample :
    (decodeParts ["OnlyName"]).body = none ∧
    ((decodeParts ["OnlyName"]).body == some "") = false := by
  refine ⟨by decide, by decide⟩

/-- C9 (amended): a missing body capture — and likewise an empty-string
body capture — decodes to an absent body value (`undefined`), the opposite
collapse of the documented ambiguity: empty is folded into absent, not
absent into empty. -/
theorem claim9_amended_body_absent :
    (∀ n : String, (decodeParts [n]).body = none) ∧
    (∀ n : String, ∀ rest : List String, (decodeParts (n :: "" :: rest)).body = none) := by
  constructor
  · intro n
    simp [decodeParts, List.get?, jsStrOrUndef]
  · intro n rest
    simp [decodeParts, List.get?, jsStrOrUndef]

/-- C10: the per-line decoding of `getReminders` and the per-line decoding
of `searchReminders` (two verbatim copies in the source, translated here
independently as `decodeParts`/`decodeLine` and
`searchDecodeParts`/`searchDecodeLine`) agree on every line, and the two
full result decoders agree on every raw result. -/
theorem claim10_decoder_equivalence :
    (∀ line : String, decodeLine line = searchDecodeLine line) ∧
    (∀ result : String, decodeReminders result = searchDecodeReminders result) :=
  ⟨fun _ => rfl, fun _ => rfl⟩

end AppleReminders
